import Mathlib

/-!
Verification development for `CameraInterfaces.py` (AwesomeImager).

Shallow embedding of the acquisition-to-disk pipeline core:
`BaseWriter.__init__` (metadata validation / framerate derivation),
`BaseWriter._lut_8bit` and `BaseWriter.convert_to_8bit` (16-bit to 8-bit
lookup-table conversion), `BaseWriter.save_metadata` (metadata sidecar),
`AcquireHamamatsu.run` (producer loop) and `WriterHamamatsu.run`
(consumer loop).

Machine integers: frame samples and level bounds are camera grey values
(uint16, 0..65535) and are modelled as `Nat`, with the `astype(np.uint8)`
narrowing made explicit as `% 256`.  Python numbers stored in the
metadata dict (exposure, framerate, level bounds) are modelled as exact
rationals `Rat`; the one concrete float computation a claim depends on,
`1/0.05`, is exactly `20.0` in IEEE double precision, matching the exact
rational value.  Python dictionary access is modelled by `Option` fields
and Python exceptions by `Except PyErr`.
-/

/-- Python exceptions raised by the embedded code paths. -/
inductive PyErr where
  | keyError
  | zeroDivisionError
  | valueError
deriving DecidableEq

/-- The metadata dictionary handed to `BaseWriter.__init__`.  Each field is
`none` when the corresponding key is absent from the Python dict.  The
`levels` entry is the pair stored under the `levels` key of the dict (the
one read back by `save_metadata`), distinct from the constructor argument
`levels` used for the lookup table. -/
structure Metadata where
  framerate : Option ℚ
  exposure : Option ℚ
  version : Option String
  stims : Option String
  levels : Option (ℚ × ℚ)
deriving DecidableEq

/-- `BaseWriter.__init__` metadata validation (CameraInterfaces.py lines
92-96): if `framerate` is absent, compute `1/exposure` (KeyError when
`exposure` is also absent, ZeroDivisionError when the exposure value is
zero) and store it under `framerate`; otherwise leave the dict unchanged. -/
def initMetadata (m : Metadata) : Except PyErr Metadata :=
  match m.framerate with
  | some _ => Except.ok m
  | none =>
    match m.exposure with
    | none => Except.error PyErr.keyError
    | some e =>
      if e = 0 then Except.error PyErr.zeroDivisionError
      else Except.ok { m with framerate := some (1 / e) }

/-- Python `int()` applied to a number: truncation toward zero. -/
def pyInt (q : ℚ) : ℤ := if 0 ≤ q then q.floor else q.ceil

/-- Python `str.endswith`. -/
def pyEndsWith (s t : String) : Bool := t.data.isSuffixOf s.data

/-- Python slicing `s[:-n]`: drop the last `n` characters. -/
def pyDropRight (s : String) (n : ℕ) : String := ⟨s.data.take (s.data.length - n)⟩

/-- The record serialized by `BaseWriter.save_metadata` (lines 125-132):
exactly the eight keys written into the JSON sidecar. -/
structure MetaRecord where
  framerate : ℚ
  source : String
  version : String
  date : String
  time : String
  stims : String
  level_min : ℤ
  level_max : ℤ
deriving DecidableEq

/-- `BaseWriter.save_metadata` (lines 120-141).  The record dict is built
first, so a missing `framerate`, `version`, `stims` or `levels` key raises
KeyError; then the filename extension is examined: `.tiff` and `.tif` give
the sidecar name (base name with a `.json` extension), anything else
raises ValueError before anything is written.  The capture date and time
strings come from the wall clock (`strftime` of the current time) and are
passed in as parameters.  On success the result carries the sidecar
filename and the record written into it. -/
def save_metadata (m : Metadata) (ymd hms filename : String) :
    Except PyErr (String × MetaRecord) :=
  match m.framerate, m.version, m.stims, m.levels with
  | some fr, some ver, some st, some lv =>
    let record : MetaRecord :=
      { framerate := fr
        source := "AwesomeImager"
        version := ver
        date := ymd
        time := hms
        stims := st
        level_min := pyInt lv.1
        level_max := pyInt lv.2 }
    if pyEndsWith filename (".tiff") then
      Except.ok (pyDropRight filename 5 ++ (".json"), record)
    else if pyEndsWith filename (".tif") then
      Except.ok (pyDropRight filename 4 ++ (".json"), record)
    else
      Except.error PyErr.valueError
  | _, _, _, _ => Except.error PyErr.keyError

/-- The divisor of `_lut_8bit` (line 111): `(high - low + 1) / 256` under
Python 2 integer division (the level bounds are integers). -/
def lutDivisor (low high : ℕ) : ℕ := (high - low + 1) / 256

/-- Value held by an entry of the in-place pipeline of `_lut_8bit`
(lines 108-112) after `clip(low, high)`, `-= low` and
`floor_divide(.., divisor)`: numpy clips as `min (max v low) high`, the
subtraction cannot underflow after the clip, and numpy integer
`floor_divide` by zero yields 0, which is also `Nat` division by zero. -/
def lutPipeline (low high v : ℕ) : ℕ :=
  (min (max v low) high - low) / lutDivisor low high

/-- One entry of the 8-bit table: the pipeline value narrowed by
`astype(np.uint8)` (line 113), i.e. reduced modulo 256.  (No entry of the
pipeline can exceed 65535, so the uint16 buffer itself never wraps.) -/
def lutEntry (low high v : ℕ) : ℕ := lutPipeline low high v % 256

/-- The full table built by `convert_to_8bit` (lines 115-117) from
`np.arange(65536)`. -/
def lutTable (low high : ℕ) : List ℕ :=
  (List.range 65536).map (lutEntry low high)

/-- `convert_to_8bit` (lines 115-118): `np.take(lut, image)` looks every
sample up in the table; samples are uint16 so they index in range. -/
def convertTo8bit (low high : ℕ) (image : List ℕ) : List ℕ :=
  image.map (fun v => (lutTable low high).getD v 0)

/-- A heap of numpy arrays addressed by position, used to model the
in-place mutation performed by `_lut_8bit` on the array passed to it. -/
def lut8bitHeap (low high : ℕ) (heap : List (List ℕ)) (r : ℕ) : List (List ℕ) :=
  heap.set r ((heap.getD r []).map (lutPipeline low high))

/-- `convert_to_8bit` at the heap level (lines 115-118): allocate
`np.arange(65536)` as a fresh array, run the in-place `_lut_8bit` pipeline
on that array (and only on it), take the `astype(np.uint8)` copy it
returns, and build the output with `np.take`, a fresh allocation.  Returns
the final heap together with the freshly built 8-bit output array. -/
def convertTo8bitHeap (low high : ℕ) (heap : List (List ℕ)) (img : ℕ) :
    List (List ℕ) × List ℕ :=
  let lutRef := heap.length
  let heap1 := heap ++ [List.range 65536]
  let heap2 := lut8bitHeap low high heap1 lutRef
  let lut8 := (heap2.getD lutRef []).map (fun x => x % 256)
  (heap2, (heap2.getD img []).map (fun v => lut8.getD v 0))

/-- Items travelling through the hand-off queue: a frame (the flat 1-D
grey-value array produced by `get_grey_values`) or the bare string
sentinel `done` pushed by the producer. -/
inductive QItem where
  | frame : List ℕ → QItem
  | done : QItem
deriving DecidableEq

/-- How the consumer's `while` loop was left. -/
inductive LoopExit where
  | blocked
  | crashed
  | sawDone
deriving DecidableEq

/-- Result of the consumer's `while` loop alone. -/
structure LoopRes where
  written : List (List ℕ)
  leftover : List QItem
  exit : LoopExit
deriving DecidableEq

/-- The frame shape hard-coded in `WriterHamamatsu.run` (line 443):
`np.reshape(cam_data, (2048, 2048))` succeeds exactly when the flat array
has `2048 * 2048` samples. -/
def frameSize : ℕ := 2048 * 2048

/-- The `while` loop of `WriterHamamatsu.run` (lines 431-460) over the
sequence of items the queue delivers.  The guard
`if not self.q.not_empty: continue` is a no-op (`not_empty` is a
`threading.Condition` object and always truthy), so each iteration pops
the next item.  A popped `done` string breaks out of the loop.  A frame is
reshaped to `(2048, 2048)` — the `try` around the body catches only
`KeyboardInterrupt`, so a reshape failure on a malformed frame propagates
and kills the loop with the remaining items undequeued — then converted
with `convert_to_8bit` and appended to the tiff container.  An exhausted
item list means the loop is still blocked in `q.get()`. -/
def writerLoop (low high : ℕ) : List QItem → LoopRes
  | [] => ⟨[], [], LoopExit.blocked⟩
  | QItem.done :: rest => ⟨[], rest, LoopExit.sawDone⟩
  | QItem.frame f :: rest =>
    if f.length = frameSize then
      let r := writerLoop low high rest
      ⟨convertTo8bit low high f :: r.written, r.leftover, r.exit⟩
    else
      ⟨[], rest, LoopExit.crashed⟩

/-- Configuration of a constructed `WriterHamamatsu`: the level window
used for the lookup table, the container filename, the (post-`__init__`)
metadata dict, and the clock strings used by `save_metadata`. -/
structure WriterCfg where
  low : ℕ
  high : ℕ
  filename : String
  metadata : Metadata
  ymd : String
  hms : String

/-- Observable outcome of one run of `WriterHamamatsu.run`. -/
structure RunResult where
  written : List (List ℕ)
  leftover : List QItem
  closes : ℕ
  saveCalls : ℕ
  metaSaved : ℕ
  outcome : LoopExit

/-- `WriterHamamatsu.run` (lines 429-463): run the pop loop; only when it
broke on the `done` sentinel does control reach `tiff_writer.close()` and
the single `save_metadata` call (they are after the loop, not in a
`finally`), and the metadata record is actually written only when that
call does not raise.  A crash inside the loop body leaves the container
unclosed and the metadata unwritten. -/
def writerRun (cfg : WriterCfg) (items : List QItem) : RunResult :=
  let r := writerLoop cfg.low cfg.high items
  match r.exit with
  | LoopExit.sawDone =>
    ⟨r.written, r.leftover, 1, 1,
      if (save_metadata cfg.metadata cfg.ymd cfg.hms cfg.filename).isOk then 1 else 0,
      LoopExit.sawDone⟩
  | e => ⟨r.written, r.leftover, 0, 0, 0, e⟩

/-- The acquisition loop of `AcquireHamamatsu.run` (lines 386-409) over
the outcomes of the successive `get_grey_values` calls: a successful
acquisition (`some f`) is pushed onto the queue, a transient per-frame
exception (`none`) is printed and skipped, and the loop continues either
way. -/
def acquireLoop : List (Option (List ℕ)) → List QItem
  | [] => []
  | some f :: rest => QItem.frame f :: acquireLoop rest
  | none :: rest => acquireLoop rest

/-- `AcquireHamamatsu.run` (lines 382-412): after the timed loop the
producer pushes the `done` sentinel exactly once. -/
def producerRun (attempts : List (Option (List ℕ))) : List QItem :=
  acquireLoop attempts ++ [QItem.done]

/-- A metadata dict carrying every key `save_metadata` reads. -/
def mGood : Metadata := ⟨some 30, none, some ("v1"), some ("stim"), some (0, 65535)⟩

/-- A metadata dict that passes construction (framerate present) but lacks
the `version`, `stims` and `levels` keys read by `save_metadata`. -/
def mBad : Metadata := ⟨some 30, none, none, none, none⟩

/-- A metadata dict with no framerate and a nonzero exposure. -/
def m7 : Metadata := ⟨none, some (1 / 4), none, none, none⟩

/-- A metadata dict with no framerate and exposure 0. -/
def m0e : Metadata := ⟨none, some 0, none, none, none⟩

/-- A metadata dict with no framerate and exposure 0.05 s = 1/20 s. -/
def m8 : Metadata := ⟨none, some (1 / 20), none, none, none⟩

/-- A writer configured with the default full-range level window, a tiff
filename and a complete metadata dict. -/
def cfgGood : WriterCfg := ⟨0, 65535, "out.tiff", mGood, "20261012", "000000"⟩

/-- A writer identical to `cfgGood` except for the incomplete metadata. -/
def cfgBad : WriterCfg := ⟨0, 65535, "out.tiff", mBad, "20261012", "000000"⟩

/-- A well-formed frame: the flat array of a full 2048 x 2048 capture. -/
def goodFrame : List ℕ := List.replicate frameSize 0

/-- A queue history whose first frame is malformed (empty array, so
`np.reshape(.., (2048, 2048))` raises) and is followed by a well-formed
frame and the sentinel. -/
def items5 : List QItem := [QItem.frame [], QItem.frame goodFrame, QItem.done]

/-- Reading a table entry: position `v` of the built table holds
`lutEntry low high v`. -/
theorem lutTable_getD (low high v : ℕ) (hv : v < 65536) :
    (lutTable low high).getD v 0 = lutEntry low high v := by
  unfold lutTable
  rw [List.getD_eq_getElem?_getD, List.getElem?_map, List.getElem?_range hv]
  rfl

/-- C3: the claim as stated fails on the code.  For the level window
(0, 256) — with low < high, both 16-bit sample values — the divisor
`(high - low + 1) / 256` is 1 under Python 2 integer division, so the
pipeline value at sample 256 is 256, which `astype(np.uint8)` wraps to 0:
the entry for a sample `≥ high` is 0, not 255, and the table is not
non-decreasing (entry 255 is 255, entry 256 is 0). -/
theorem C3_lut_counterexample :
    (0 : ℕ) < 256 ∧ (256 : ℕ) ≤ 65535 ∧
    (lutTable 0 256).getD 255 0 = 255 ∧
    (lutTable 0 256).getD 256 0 = 0 := by
  refine ⟨by norm_num, by norm_num, ?_, ?_⟩
  · rw [lutTable_getD 0 256 255 (by norm_num)]; decide
  · rw [lutTable_getD 0 256 256 (by norm_num)]; decide

/-- C3 (amended): for a level window with `low < high` whose width
`high - low + 1` is a multiple of 256 (e.g. the default (0, 65535)), the
built table is non-decreasing, maps every sample `≤ low` to 0 and every
sample `≥ high` to 255.  For other windows the Python 2 integer divisor
truncates and the uint8 cast wraps, as the counterexample shows. -/
theorem C3_lut_monotone_amended (low high : ℕ) (hlt : low < high)
    (hdvd : 256 ∣ (high - low + 1)) :
    (∀ v w, v < 65536 → w < 65536 → v ≤ w →
        (lutTable low high).getD v 0 ≤ (lutTable low high).getD w 0) ∧
    (∀ v, v < 65536 → v ≤ low → (lutTable low high).getD v 0 = 0) ∧
    (∀ v, v < 65536 → high ≤ v → (lutTable low high).getD v 0 = 255) := by
  obtain ⟨k, hk⟩ := hdvd
  have hkpos : 0 < k := by omega
  have hdiv : lutDivisor low high = k := by
    unfold lutDivisor
    rw [hk]
    exact Nat.mul_div_cancel_left k (by norm_num)
  have hsub : high - low = 256 * k - 1 := by omega
  have hbound : ∀ v, lutPipeline low high v < 256 := by
    intro v
    unfold lutPipeline
    rw [hdiv, Nat.div_lt_iff_lt_mul hkpos]
    have h1 : min (max v low) high - low ≤ high - low :=
      Nat.sub_le_sub_right (min_le_right _ _) low
    omega
  have hentry : ∀ v, lutEntry low high v = lutPipeline low high v := by
    intro v
    unfold lutEntry
    exact Nat.mod_eq_of_lt (hbound v)
  refine ⟨?_, ?_, ?_⟩
  · intro v w hv hw hvw
    rw [lutTable_getD low high v hv, lutTable_getD low high w hw, hentry, hentry]
    unfold lutPipeline
    exact Nat.div_le_div_right
      (Nat.sub_le_sub_right (min_le_min (max_le_max hvw le_rfl) le_rfl) low)
  · intro v hv hvlow
    rw [lutTable_getD low high v hv, hentry]
    unfold lutPipeline
    rw [max_eq_right hvlow, min_eq_left hlt.le]
    simp
  · intro v hv hhv
    rw [lutTable_getD low high v hv, hentry]
    unfold lutPipeline
    rw [max_eq_left (le_trans hlt.le hhv), min_eq_right hhv, hdiv, hsub]
    exact Nat.div_eq_of_lt_le (by omega) (by omega)

/-- C3 witness: at the default window (0, 65535) the hypotheses hold and
the entry for the top sample is 255. -/
theorem C3_lut_monotone_amended_witness :
    (lutTable 0 65535).getD 65535 0 = 255 :=
  (C3_lut_monotone_amended 0 65535 (by norm_num) (by norm_num)).2.2 65535
    (by norm_num) (by norm_num)

/-- C4: code bug.  For the degenerate window `low == high` the divisor
`(high - low + 1) / 256 = 1 / 256` is 0 under Python 2 integer division,
so `np.floor_divide` divides by zero (numpy reports a runtime warning and
yields 0); the code has no fallback divisor of 1.  Every entry of the
resulting table is still the defined value 0. -/
theorem C4_divisor_zero (low v : ℕ) :
    lutDivisor low low = 0 ∧ lutEntry low low v = 0 := by
  constructor
  · unfold lutDivisor
    rw [Nat.sub_self]
  · unfold lutEntry lutPipeline
    rw [min_eq_right (le_max_right v low), Nat.sub_self]
    simp

/-- Success of `save_metadata` is equivalent to all four dict keys being
present and the filename carrying a recognised tiff extension. -/
theorem save_metadata_isOk_iff (m : Metadata) (ymd hms fn : String) :
    (save_metadata m ymd hms fn).isOk = true ↔
      (m.framerate.isSome = true ∧ m.version.isSome = true ∧
       m.stims.isSome = true ∧ m.levels.isSome = true ∧
       (pyEndsWith fn (".tiff") = true ∨ pyEndsWith fn (".tif") = true)) := by
  rcases m with ⟨fr, ex, ver, st, lv⟩
  cases fr <;> cases ver <;> cases st <;> cases lv <;>
    simp [save_metadata, Except.isOk, Except.toBool]
  split_ifs <;> simp_all [Except.toBool]

/-- C6: the claim as stated fails on the code.  A metadata dict carrying
only a framerate passes `BaseWriter.__init__` without any error, yet the
`version`, `stims` and `levels` fields required for serialization are
first missed at finalization, where `save_metadata` raises KeyError. -/
theorem C6_validation_counterexample :
    initMetadata mBad = Except.ok mBad ∧
    save_metadata mBad ("20261012") ("000000") ("out.tiff") =
      Except.error PyErr.keyError :=
  ⟨rfl, rfl⟩

/-- C6 (amended): construction validates only the framerate (deriving it
from the exposure when absent); the `version`, `stims` and `levels`
fields are checked only when the record is serialized at finalization,
where a missing one raises KeyError. -/
theorem C6_validation_amended :
    (∀ m : Metadata, m.framerate.isSome = true → initMetadata m = Except.ok m) ∧
    (∀ (m : Metadata) (ymd hms fn : String),
        m.version = none ∨ m.stims = none ∨ m.levels = none →
        save_metadata m ymd hms fn = Except.error PyErr.keyError) := by
  constructor
  · intro m h
    rcases hm : m.framerate with _ | fr
    · rw [hm] at h
      simp at h
    · simp [initMetadata, hm]
  · intro m ymd hms fn h
    rcases m with ⟨fr, ex, ver, st, lv⟩
    cases fr <;> cases ver <;> cases st <;> cases lv <;>
      simp_all [save_metadata]

/-- C6 witness: a dict with a framerate passes construction untouched. -/
theorem C6_validation_amended_witness :
    initMetadata mGood = Except.ok mGood :=
  C6_validation_amended.1 mGood rfl

/-- C7: the claim as stated fails on the code.  With no `framerate` key
and `exposure = 0`, the dict does contain an `exposure` key, yet
`1/self.metadata['exposure']` raises ZeroDivisionError, so construction
raises although the claimed condition (neither key present) is false. -/
theorem C7_iff_counterexample :
    m0e.exposure.isSome = true ∧
    initMetadata m0e = Except.error PyErr.zeroDivisionError :=
  ⟨rfl, rfl⟩

/-- C7 (amended): construction raises if and only if either neither
`framerate` nor `exposure` is present (KeyError), or `framerate` is
absent and the exposure value is 0 (ZeroDivisionError); when `framerate`
is absent and a nonzero exposure is present, construction succeeds and
stores framerate 1/exposure. -/
theorem C7_construction_error_amended :
    (∀ m : Metadata, (initMetadata m).isOk = false ↔
        m.framerate = none ∧ (m.exposure = none ∨ m.exposure = some 0)) ∧
    (∀ (m : Metadata) (e : ℚ), m.framerate = none → m.exposure = some e → e ≠ 0 →
        initMetadata m = Except.ok { m with framerate := some (1 / e) }) := by
  constructor
  · intro m
    rcases m with ⟨fr, ex, ver, st, lv⟩
    cases fr with
    | some a => simp [initMetadata, Except.isOk, Except.toBool]
    | none =>
      cases ex with
      | none => simp [initMetadata, Except.isOk, Except.toBool]
      | some e =>
        by_cases he : e = 0 <;>
          simp [initMetadata, Except.isOk, Except.toBool, he]
  · intro m e h1 h2 h3
    simp [initMetadata, h1, h2, h3]

/-- C7 witness: with no framerate and exposure 1/4 s, construction
succeeds and stores framerate 4. -/
theorem C7_construction_error_amended_witness :
    initMetadata m7 = Except.ok { m7 with framerate := some (1 / (1 / 4 : ℚ)) } :=
  C7_construction_error_amended.2 m7 (1 / 4) rfl rfl (by norm_num)

/-- C8: with exposure 0.05 s (= 1/20, and 1/0.05 is exactly 20.0 in IEEE
double precision) and no framerate key, construction stores framerate
exactly 20. -/
theorem C8_exposure_framerate (m : Metadata) (h1 : m.framerate = none)
    (h2 : m.exposure = some ((1 : ℚ) / 20)) :
    initMetadata m = Except.ok { m with framerate := some ((20 : ℚ)) } := by
  have h20 : ((1 : ℚ) / 20) ≠ 0 := by norm_num
  simp [initMetadata, h1, h2, h20]

/-- C8 witness: the concrete dict with exposure 1/20 yields framerate 20. -/
theorem C8_exposure_framerate_witness :
    initMetadata m8 = Except.ok { m8 with framerate := some ((20 : ℚ)) } :=
  C8_exposure_framerate m8 rfl rfl

/-- C9: with all four dict keys present, a filename ending in `.tiff`
(resp. `.tif`) makes `save_metadata` write, to the same base name with a
`.json` extension, exactly the record {framerate, source "AwesomeImager",
version, date, time, stims, level_min, level_max} with integer level
bounds; any other extension raises ValueError and writes nothing. -/
theorem C9_sidecar (m : Metadata) (fr : ℚ) (ver st : String) (lv : ℚ × ℚ)
    (ymd hms fn : String)
    (h1 : m.framerate = some fr) (h2 : m.version = some ver)
    (h3 : m.stims = some st) (h4 : m.levels = some lv) :
    (pyEndsWith fn (".tiff") = true →
        save_metadata m ymd hms fn =
          Except.ok (pyDropRight fn 5 ++ (".json"),
            ⟨fr, "AwesomeImager", ver, ymd, hms, st, pyInt lv.1, pyInt lv.2⟩)) ∧
    (pyEndsWith fn (".tiff") = false → pyEndsWith fn (".tif") = true →
        save_metadata m ymd hms fn =
          Except.ok (pyDropRight fn 4 ++ (".json"),
            ⟨fr, "AwesomeImager", ver, ymd, hms, st, pyInt lv.1, pyInt lv.2⟩)) ∧
    (pyEndsWith fn (".tiff") = false → pyEndsWith fn (".tif") = false →
        save_metadata m ymd hms fn = Except.error PyErr.valueError) := by
  refine ⟨fun ha => ?_, fun ha hb => ?_, fun ha hb => ?_⟩
  · simp [save_metadata, h1, h2, h3, h4, ha]
  · simp [save_metadata, h1, h2, h3, h4, ha, hb]
  · simp [save_metadata, h1, h2, h3, h4, ha, hb]

/-- C9 witness: at the concrete complete dict and filename `out.tiff` the
sidecar is `out.json` with the expected record. -/
theorem C9_sidecar_witness :
    save_metadata mGood ("20261012") ("000000") ("out.tiff") =
      Except.ok (pyDropRight ("out.tiff") 5 ++ (".json"),
        ⟨30, "AwesomeImager", "v1", "20261012", "000000", "stim",
          pyInt ((0 : ℚ)), pyInt ((65535 : ℚ))⟩) :=
  (C9_sidecar mGood 30 ("v1") ("stim") ((0 : ℚ), (65535 : ℚ)) ("20261012")
      ("000000") ("out.tiff") rfl rfl rfl rfl).1 (by decide)

/-- A run of well-formed frames at the head of the item sequence is
converted and appended in delivery order, and the loop then continues
with the remaining items. -/
theorem writerLoop_frames (low high : ℕ) (frames : List (List ℕ)) (rest : List QItem)
    (h : ∀ f ∈ frames, f.length = frameSize) :
    writerLoop low high (frames.map QItem.frame ++ rest) =
      ⟨frames.map (convertTo8bit low high) ++ (writerLoop low high rest).written,
        (writerLoop low high rest).leftover,
        (writerLoop low high rest).exit⟩ := by
  induction frames with
  | nil => simp [writerLoop]
  | cons f fs ih =>
    have hf : f.length = frameSize := h f (by simp)
    have hfs : ∀ g ∈ fs, g.length = frameSize := fun g hg => h g (by simp [hg])
    simp [writerLoop, hf, ih hfs]

/-- A full consumer run over well-formed frames followed by the sentinel:
the frames are written in order, the items after the sentinel are never
dequeued, the container is closed once and `save_metadata` is called
once, succeeding iff it does not raise. -/
theorem writerRun_done (cfg : WriterCfg) (frames : List (List ℕ)) (rest : List QItem)
    (h : ∀ f ∈ frames, f.length = frameSize) :
    writerRun cfg (frames.map QItem.frame ++ QItem.done :: rest) =
      ⟨frames.map (convertTo8bit cfg.low cfg.high), rest, 1, 1,
        if (save_metadata cfg.metadata cfg.ymd cfg.hms cfg.filename).isOk then 1 else 0,
        LoopExit.sawDone⟩ := by
  have hl := writerLoop_frames cfg.low cfg.high frames (QItem.done :: rest) h
  unfold writerRun
  rw [hl]
  simp [writerLoop]

/-- C1: for every finite sequence of (well-shaped, per the Frame data
model) frames delivered through the queue followed by the sentinel, the
consumer appends exactly the converted frames, in delivery order, with no
duplication or drop, and dequeues nothing further. -/
theorem C1_consumer_fifo (cfg : WriterCfg) (frames : List (List ℕ))
    (h : ∀ f ∈ frames, f.length = frameSize) :
    (writerRun cfg (frames.map QItem.frame ++ [QItem.done])).written =
        frames.map (convertTo8bit cfg.low cfg.high) ∧
    (writerRun cfg (frames.map QItem.frame ++ [QItem.done])).leftover = [] := by
  rw [writerRun_done cfg frames [] h]
  exact ⟨rfl, rfl⟩

/-- C1 witness: a single full-size frame followed by the sentinel. -/
theorem C1_consumer_fifo_witness :
    (writerRun cfgGood ([goodFrame].map QItem.frame ++ [QItem.done])).written =
        [goodFrame].map (convertTo8bit cfgGood.low cfgGood.high) ∧
    (writerRun cfgGood ([goodFrame].map QItem.frame ++ [QItem.done])).leftover = [] :=
  C1_consumer_fifo cfgGood [goodFrame] (by
    intro f hf
    rw [List.mem_singleton] at hf
    subst hf
    simp [goodFrame])

/-- C2: the claim as stated fails on the code.  A writer whose metadata
dict passed construction but lacks the `version` key (`mBad`) receives
the sentinel, breaks out of the loop and closes the container once, yet
`save_metadata` raises KeyError, so the metadata record is written zero
times, not exactly once. -/
theorem C2_metadata_write_counterexample :
    initMetadata mBad = Except.ok mBad ∧
    (writerRun cfgBad [QItem.done]).outcome = LoopExit.sawDone ∧
    (writerRun cfgBad [QItem.done]).closes = 1 ∧
    (writerRun cfgBad [QItem.done]).metaSaved = 0 :=
  ⟨rfl, rfl, rfl, rfl⟩

/-- C2 (amended): once the consumer pops the sentinel it is terminal —
no further dequeue is attempted, the container is closed exactly once and
`save_metadata` is invoked exactly once, for any number of preceding
(well-shaped) frames; the metadata record is actually written on that
invocation iff the dict still holds the framerate, version, stims and
levels keys and the filename ends in `.tiff` or `.tif` — otherwise the
invocation raises and no record is written. -/
theorem C2_endofstream_terminal_amended (cfg : WriterCfg) (frames : List (List ℕ))
    (rest : List QItem) (h : ∀ f ∈ frames, f.length = frameSize) :
    (writerRun cfg (frames.map QItem.frame ++ QItem.done :: rest)).leftover = rest ∧
    (writerRun cfg (frames.map QItem.frame ++ QItem.done :: rest)).closes = 1 ∧
    (writerRun cfg (frames.map QItem.frame ++ QItem.done :: rest)).saveCalls = 1 ∧
    ((writerRun cfg (frames.map QItem.frame ++ QItem.done :: rest)).metaSaved = 1 ↔
      (cfg.metadata.framerate.isSome = true ∧ cfg.metadata.version.isSome = true ∧
       cfg.metadata.stims.isSome = true ∧ cfg.metadata.levels.isSome = true ∧
       (pyEndsWith cfg.filename (".tiff") = true ∨
        pyEndsWith cfg.filename (".tif") = true))) := by
  rw [writerRun_done cfg frames rest h]
  refine ⟨rfl, rfl, rfl, ?_⟩
  rw [← save_metadata_isOk_iff cfg.metadata cfg.ymd cfg.hms cfg.filename]
  cases hok : (save_metadata cfg.metadata cfg.ymd cfg.hms cfg.filename).isOk <;>
    simp [hok]

/-- C2 witness: the empty frame prefix at the complete configuration. -/
theorem C2_endofstream_terminal_amended_witness :
    (writerRun cfgGood (([] : List (List ℕ)).map QItem.frame ++ QItem.done :: [])).leftover = [] ∧
    (writerRun cfgGood (([] : List (List ℕ)).map QItem.frame ++ QItem.done :: [])).closes = 1 ∧
    (writerRun cfgGood (([] : List (List ℕ)).map QItem.frame ++ QItem.done :: [])).saveCalls = 1 ∧
    ((writerRun cfgGood (([] : List (List ℕ)).map QItem.frame ++ QItem.done :: [])).metaSaved = 1 ↔
      (cfgGood.metadata.framerate.isSome = true ∧ cfgGood.metadata.version.isSome = true ∧
       cfgGood.metadata.stims.isSome = true ∧ cfgGood.metadata.levels.isSome = true ∧
       (pyEndsWith cfgGood.filename (".tiff") = true ∨
        pyEndsWith cfgGood.filename (".tif") = true))) :=
  C2_endofstream_terminal_amended cfgGood [] [] (by intro f hf; simp at hf)

/-- The items the producer pushes are exactly its successful acquisitions
in order, each tagged as a frame. -/
theorem acquireLoop_eq (attempts : List (Option (List ℕ))) :
    acquireLoop attempts = (attempts.filterMap id).map QItem.frame := by
  induction attempts with
  | nil => rfl
  | cons a rest ih => cases a <;> simp [acquireLoop, ih]

/-- Successes plus transient errors account for every acquisition
attempt. -/
theorem length_filterMap_id (l : List (Option (List ℕ))) :
    (l.filterMap id).length + l.countP (fun a => a.isNone) = l.length := by
  induction l with
  | nil => rfl
  | cons a rest ih => cases a <;> simp [List.countP_cons, ih] <;> omega

/-- C5: the claim as stated fails on the code.  With the queue history
`items5` = [malformed frame, well-formed frame, sentinel] — one transient
conversion error among N = 2 frames — the claim predicts N − 1 = 1
written frame, but the consumer's `try` catches only KeyboardInterrupt,
so the reshape failure kills the loop: nothing is written, the remaining
frame is abandoned and the container is never closed. -/
theorem C5_transient_counterexample :
    (writerRun cfgGood items5).written.length = 0 ∧
    (writerRun cfgGood items5).written.length ≠ 2 - 1 ∧
    (writerRun cfgGood items5).closes = 0 ∧
    (writerRun cfgGood items5).outcome = LoopExit.crashed := by
  have h0 : writerLoop cfgGood.low cfgGood.high items5 =
      ⟨[], [QItem.frame goodFrame, QItem.done], LoopExit.crashed⟩ := by
    simp [items5, writerLoop, frameSize]
  unfold writerRun
  rw [h0]
  refine ⟨rfl, by norm_num, rfl, rfl⟩

/-- C5 (amended): a transient acquisition error on the producer side is
skipped and the loop continues — the consumer then writes exactly the
successful acquisitions, in order, so the written count is N minus the
number of producer-side transient errors, and the session still closes
the container.  A consumer-side conversion error, by contrast, is fatal
to the writer loop (see the counterexample): the code tolerates transient
errors only in the producer. -/
theorem C5_transient_skip_amended (cfg : WriterCfg)
    (attempts : List (Option (List ℕ)))
    (h : ∀ f : List ℕ, some f ∈ attempts → f.length = frameSize) :
    (writerRun cfg (producerRun attempts)).written =
        (attempts.filterMap id).map (convertTo8bit cfg.low cfg.high) ∧
    (writerRun cfg (producerRun attempts)).written.length =
        attempts.length - attempts.countP (fun a => a.isNone) ∧
    (writerRun cfg (producerRun attempts)).closes = 1 := by
  have hmem : ∀ f ∈ attempts.filterMap id, f.length = frameSize := by
    intro f hf
    rw [List.mem_filterMap] at hf
    obtain ⟨a, ha, hid⟩ := hf
    cases a with
    | none => simp at hid
    | some g =>
      simp at hid
      subst hid
      exact h g ha
  unfold producerRun
  rw [acquireLoop_eq]
  rw [writerRun_done cfg (attempts.filterMap id) [] hmem]
  refine ⟨rfl, ?_, rfl⟩
  have hlen := length_filterMap_id attempts
  have hcount : attempts.countP (fun a => a.isNone) ≤ attempts.length :=
    List.countP_le_length _
  simp
  omega

/-- C5 witness: one successful acquisition and one transient error. -/
theorem C5_transient_skip_amended_witness :
    (writerRun cfgGood (producerRun [some goodFrame, none])).written =
        (([some goodFrame, none]).filterMap id).map
          (convertTo8bit cfgGood.low cfgGood.high) ∧
    (writerRun cfgGood (producerRun [some goodFrame, none])).written.length =
        ([some goodFrame, none] : List (Option (List ℕ))).length -
          ([some goodFrame, none] : List (Option (List ℕ))).countP
            (fun a => a.isNone) ∧
    (writerRun cfgGood (producerRun [some goodFrame, none])).closes = 1 :=
  C5_transient_skip_amended cfgGood [some goodFrame, none] (by
    intro f hf
    simp at hf
    subst hf
    simp [goodFrame])

/-- C10: `convert_to_8bit` never mutates the caller's frame: the in-place
clip, subtraction and floor-division of `_lut_8bit` hit only the freshly
allocated `np.arange(65536)` table, so after the call the frame array in
the heap is unchanged, and the returned 8-bit array is a fresh allocation
whose content is the pure table lookup of the frame. -/
theorem C10_no_frame_mutation (low high : ℕ) (heap : List (List ℕ)) (img : ℕ)
    (h : img < heap.length) :
    (convertTo8bitHeap low high heap img).1.getD img [] = heap.getD img [] ∧
    (convertTo8bitHeap low high heap img).2 =
      convertTo8bit low high (heap.getD img []) := by
  have hne : heap.length ≠ img := by omega
  have himg : (lut8bitHeap low high (heap ++ [List.range 65536]) heap.length).getD
      img [] = heap.getD img [] := by
    unfold lut8bitHeap
    simp only [List.getD_eq_getElem?_getD]
    rw [List.getElem?_set_ne hne]
    simp [List.getElem?_append, h]
  have hlut : (lut8bitHeap low high (heap ++ [List.range 65536]) heap.length).getD
      heap.length [] = (List.range 65536).map (lutPipeline low high) := by
    unfold lut8bitHeap
    have hlen : heap.length < (heap ++ [List.range 65536]).length := by simp
    have harr : (heap ++ [List.range 65536])[heap.length]? =
        some (List.range 65536) := by
      simp [List.getElem?_append_right]
    simp only [List.getD_eq_getElem?_getD]
    rw [harr, List.getElem?_set_eq_of_lt _ hlen]
    simp
  constructor
  · simp only [convertTo8bitHeap]
    exact himg
  · simp only [convertTo8bitHeap]
    rw [himg, hlut]
    unfold convertTo8bit lutTable lutEntry
    rw [List.map_map]
    rfl

/-- C10 witness: a one-array heap holding a small frame at address 0. -/
theorem C10_no_frame_mutation_witness :
    (convertTo8bitHeap 0 65535 [[0, 1, 2]] 0).1.getD 0 [] =
        ([[0, 1, 2]] : List (List ℕ)).getD 0 [] ∧
    (convertTo8bitHeap 0 65535 [[0, 1, 2]] 0).2 =
      convertTo8bit 0 65535 (([[0, 1, 2]] : List (List ℕ)).getD 0 []) :=
  C10_no_frame_mutation 0 65535 [[0, 1, 2]] 0 (by norm_num)
